import Mathlib

/-!
Verification of the grid-to-geography projection and temporal burn
aggregation subsystem of the vigIA repository.

The Python sources embedded here are:
  * scripts/visualize_openstreetmap.py  (FireSimulationVisualizer)
  * scripts/export_geojson.py           (pixel_to_polygon, time_to_color_rgb,
                                         export_to_geojson)
  * scripts/animate_fire_spread.py      (FireAnimationGenerator)

Modelling conventions:
  * Python floats are modelled as exact rationals.  Every arithmetic
    operation that appears in the sources (add, sub, mul, div by nonzero
    quantities, comparison) is exact on the inputs the claims quantify
    over, so the rational model is faithful up to float rounding, which
    none of the claims is about.
  * The single transcendental value `math.cos(math.radians(abs(center_lat)))`
    (computed identically by all three scripts) is carried as a field
    `cos_abs_lat` of the configuration record, since a cosine of a rational
    is in general irrational.  No claim depends on its actual value.
  * The 3-D state array `fire_map` of shape (T, H, W) is modelled as a
    total function `states : ℕ → ℕ → ℕ → ℤ` (time, row, column) together
    with the explicit dimensions.
  * Python `int()` truncation toward zero is `pyInt`; Python division,
    where the claim is about a possible ZeroDivisionError, is the
    `Option`-valued `pyDiv`.
-/

/-- Configuration shared by the three scripts.  All three read the same
`metadata.json` fields: the operational center, `area.screen_size =
[grid_height, grid_width]` and the per-cell scale in meters
(`pixel_scale * 0.3048` is performed upstream of this record).
`cos_abs_lat` carries the value of `math.cos(math.radians(abs(center_lat)))`
which all three scripts compute by the same expression. -/
structure GridConfig where
  center_lat : ℚ
  center_lon : ℚ
  grid_height : ℕ
  grid_width : ℕ
  pixel_scale_m : ℚ
  cos_abs_lat : ℚ
deriving DecidableEq

/-- Constant `meters_per_deg_lat = 111320` from `_setup_coordinates`. -/
def meters_per_deg_lat : ℚ := 111320

/-- `meters_per_deg_lon = 111320 * cos(lat_rad)` from `_setup_coordinates`. -/
def meters_per_deg_lon (cfg : GridConfig) : ℚ := 111320 * cfg.cos_abs_lat

/-- `area_width_m = grid_width * pixel_scale_m`. -/
def area_width_m (cfg : GridConfig) : ℚ := (cfg.grid_width : ℚ) * cfg.pixel_scale_m

/-- `area_height_m = grid_height * pixel_scale_m`. -/
def area_height_m (cfg : GridConfig) : ℚ := (cfg.grid_height : ℚ) * cfg.pixel_scale_m

/-- `delta_lat = area_height_m / meters_per_deg_lat`. -/
def delta_lat (cfg : GridConfig) : ℚ := area_height_m cfg / meters_per_deg_lat

/-- `delta_lon = area_width_m / meters_per_deg_lon`. -/
def delta_lon (cfg : GridConfig) : ℚ := area_width_m cfg / meters_per_deg_lon cfg

/-- `north_lat = center_lat + delta_lat / 2`. -/
def north_lat (cfg : GridConfig) : ℚ := cfg.center_lat + delta_lat cfg / 2

/-- `south_lat = center_lat - delta_lat / 2`. -/
def south_lat (cfg : GridConfig) : ℚ := cfg.center_lat - delta_lat cfg / 2

/-- `west_lon = center_lon - delta_lon / 2`. -/
def west_lon (cfg : GridConfig) : ℚ := cfg.center_lon - delta_lon cfg / 2

/-- `east_lon = center_lon + delta_lon / 2`. -/
def east_lon (cfg : GridConfig) : ℚ := cfg.center_lon + delta_lon cfg / 2

/-- `FireSimulationVisualizer.pixel_to_latlon` (visualize_openstreetmap.py,
lines 122-135): `lon = west_lon + (x / grid_width) * delta_lon`,
`lat = north_lat - (y / grid_height) * delta_lat`; returns `(lat, lon)`. -/
def pixel_to_latlon (cfg : GridConfig) (x y : ℤ) : ℚ × ℚ :=
  (north_lat cfg - ((y : ℚ) / (cfg.grid_height : ℚ)) * delta_lat cfg,
   west_lon cfg + ((x : ℚ) / (cfg.grid_width : ℚ)) * delta_lon cfg)

/-- `FireAnimationGenerator.pixel_to_latlon` (animate_fire_spread.py,
lines 73-76): same formula with the `+ 0.5` cell-center offset. -/
def anim_pixel_to_latlon (cfg : GridConfig) (x y : ℤ) : ℚ × ℚ :=
  (north_lat cfg - (((y : ℚ) + 1/2) / (cfg.grid_height : ℚ)) * delta_lat cfg,
   west_lon cfg + (((x : ℚ) + 1/2) / (cfg.grid_width : ℚ)) * delta_lon cfg)

/-- `pixel_lat = delta_lat / grid_height` from export_geojson.pixel_to_polygon. -/
def geo_pixel_lat (cfg : GridConfig) : ℚ := delta_lat cfg / (cfg.grid_height : ℚ)

/-- `pixel_lon = delta_lon / grid_width` from export_geojson.pixel_to_polygon. -/
def geo_pixel_lon (cfg : GridConfig) : ℚ := delta_lon cfg / (cfg.grid_width : ℚ)

/-- `nw_lat = north_lat - y * pixel_lat` from export_geojson.pixel_to_polygon. -/
def geo_nw_lat (cfg : GridConfig) (y : ℤ) : ℚ := north_lat cfg - (y : ℚ) * geo_pixel_lat cfg

/-- `nw_lon = west_lon + x * pixel_lon` from export_geojson.pixel_to_polygon. -/
def geo_nw_lon (cfg : GridConfig) (x : ℤ) : ℚ := west_lon cfg + (x : ℚ) * geo_pixel_lon cfg

/-- `se_lat = nw_lat - pixel_lat` from export_geojson.pixel_to_polygon. -/
def geo_se_lat (cfg : GridConfig) (y : ℤ) : ℚ := geo_nw_lat cfg y - geo_pixel_lat cfg

/-- `se_lon = nw_lon + pixel_lon` from export_geojson.pixel_to_polygon. -/
def geo_se_lon (cfg : GridConfig) (x : ℤ) : ℚ := geo_nw_lon cfg x + geo_pixel_lon cfg

/-- `export_geojson.pixel_to_polygon` (lines 21-63): the closed GeoJSON ring
`[[nw_lon, nw_lat], [se_lon, nw_lat], [se_lon, se_lat], [nw_lon, se_lat],
[nw_lon, nw_lat]]`, each vertex in (lon, lat) order. -/
def pixel_to_polygon (cfg : GridConfig) (x y : ℤ) : List (ℚ × ℚ) :=
  [(geo_nw_lon cfg x, geo_nw_lat cfg y),
   (geo_se_lon cfg x, geo_nw_lat cfg y),
   (geo_se_lon cfg x, geo_se_lat cfg y),
   (geo_nw_lon cfg x, geo_se_lat cfg y),
   (geo_nw_lon cfg x, geo_nw_lat cfg y)]

/-- `FireSimulationVisualizer.get_pixel_bounds` (lines 137-153): returns
`[[se_lat, nw_lon], [nw_lat, se_lon]]` where the nw corner is
`pixel_to_latlon(x, y)` and the se corner is `pixel_to_latlon(x+1, y+1)`. -/
def get_pixel_bounds (cfg : GridConfig) (x y : ℤ) : (ℚ × ℚ) × (ℚ × ℚ) :=
  ((( pixel_to_latlon cfg (x+1) (y+1)).1, (pixel_to_latlon cfg x y).2),
   ((pixel_to_latlon cfg x y).1, (pixel_to_latlon cfg (x+1) (y+1)).2))

/-- The spec's single parameterized projection formula (spec section 4.1):
`lat = north - ((y + offset) / grid_height) * delta_lat`,
`lon = west + ((x + offset) / grid_width) * delta_lon`.
Written from the spec's words, to be compared with the three source
implementations (refinement claim C6). -/
def spec_project (cfg : GridConfig) (x y : ℤ) (offset : ℚ) : ℚ × ℚ :=
  (north_lat cfg - (((y : ℚ) + offset) / (cfg.grid_height : ℚ)) * delta_lat cfg,
   west_lon cfg + (((x : ℚ) + offset) / (cfg.grid_width : ℚ)) * delta_lon cfg)

/-- One step of the burn-time loop body (all three scripts, verbatim):
`newly_burning = (fire_map[t] >= 1) & (burn_time == -1); burn_time[newly_burning] = t`. -/
def burn_time_step (states : ℕ → ℕ → ℕ → ℤ) (M : ℕ → ℕ → ℤ) (t : ℕ) : ℕ → ℕ → ℤ :=
  fun y x => if M y x = -1 ∧ 1 ≤ states t y x then (t : ℤ) else M y x

/-- The burn-time reduction (`_compute_burn_time_matrix`, also repeated in
export_geojson.export_to_geojson and animate_fire_spread.prepare_animation_data):
start from a matrix full of `-1` and fold the step over `t = 0 .. T-1`. -/
def burn_time_matrix (states : ℕ → ℕ → ℕ → ℤ) (T : ℕ) : ℕ → ℕ → ℤ :=
  (List.range T).foldl (burn_time_step states) (fun _ _ => -1)

lemma burn_time_matrix_zero (states : ℕ → ℕ → ℕ → ℤ) :
    burn_time_matrix states 0 = fun _ _ => -1 := rfl

lemma burn_time_matrix_succ (states : ℕ → ℕ → ℕ → ℤ) (T : ℕ) :
    burn_time_matrix states (T + 1)
      = burn_time_step states (burn_time_matrix states T) T := by
  simp [burn_time_matrix, List.range_succ]

lemma burn_time_matrix_eq_neg_one (states : ℕ → ℕ → ℕ → ℤ) (T y x : ℕ)
    (h : ∀ t < T, ¬ (1 : ℤ) ≤ states t y x) :
    burn_time_matrix states T y x = -1 := by
  induction T with
  | zero => rfl
  | succ T ih =>
      rw [burn_time_matrix_succ, burn_time_step]
      have hT : ¬ (1 : ℤ) ≤ states T y x := h T (Nat.lt_succ_self T)
      have hrest : burn_time_matrix states T y x = -1 :=
        ih (fun t ht => h t (Nat.lt_succ_of_lt ht))
      simp [hT, hrest]

lemma burn_time_matrix_of_first (states : ℕ → ℕ → ℕ → ℤ) (T y x τ : ℕ)
    (hτT : τ < T) (hig : (1 : ℤ) ≤ states τ y x)
    (hmin : ∀ t < τ, ¬ (1 : ℤ) ≤ states t y x) :
    burn_time_matrix states T y x = (τ : ℤ) := by
  induction T with
  | zero => omega
  | succ T ih =>
      rw [burn_time_matrix_succ, burn_time_step]
      rcases Nat.lt_succ_iff_lt_or_eq.mp hτT with hlt | heq
      · have hv : burn_time_matrix states T y x = (τ : ℤ) := ih hlt
        have hne : (τ : ℤ) ≠ -1 := by omega
        simp [hv, hne]
      · subst heq
        have hv : burn_time_matrix states τ y x = -1 :=
          burn_time_matrix_eq_neg_one states τ y x hmin
        simp [hv, hig]

lemma burn_time_matrix_first (states : ℕ → ℕ → ℕ → ℤ) (T y x : ℕ)
    (hex : ∃ t, t < T ∧ (1 : ℤ) ≤ states t y x) :
    ∃ τ, τ < T ∧ burn_time_matrix states T y x = (τ : ℤ)
      ∧ (1 : ℤ) ≤ states τ y x ∧ ∀ t < τ, ¬ (1 : ℤ) ≤ states t y x := by
  classical
  obtain ⟨t0, ht0, hig0⟩ := hex
  have hexP : ∃ t, (1 : ℤ) ≤ states t y x := ⟨t0, hig0⟩
  set τ := Nat.find hexP with hτ
  have higτ : (1 : ℤ) ≤ states τ y x := Nat.find_spec hexP
  have hminτ : ∀ t < τ, ¬ (1 : ℤ) ≤ states t y x := fun t ht => Nat.find_min hexP ht
  have hle : τ ≤ t0 := Nat.find_min' hexP hig0
  have hτT : τ < T := lt_of_le_of_lt hle ht0
  exact ⟨τ, hτT, burn_time_matrix_of_first states T y x τ hτT higτ hminτ, higτ, hminτ⟩

lemma burn_time_matrix_nonneg (states : ℕ → ℕ → ℕ → ℤ) (T y x t0 : ℕ)
    (h1 : t0 < T) (h2 : (1 : ℤ) ≤ states t0 y x) :
    0 ≤ burn_time_matrix states T y x := by
  obtain ⟨τ, _, hval, _, _⟩ :=
    burn_time_matrix_first states T y x ⟨t0, h1, h2⟩
  rw [hval]
  exact Int.ofNat_nonneg τ

/-- Python `int()` truncation toward zero, on exact rationals. -/
def pyInt (q : ℚ) : ℤ := if q < 0 then -(Int.floor (-q)) else Int.floor q

/-- Python division, `Option`-valued to record the possible
ZeroDivisionError: `none` exactly when the divisor is zero. -/
def pyDiv (a b : ℚ) : Option ℚ := if b = 0 then none else some (a / b)

/-- The gradient of `export_geojson.time_to_color_rgb` on the normalized
time `t`: two linear segments split at `t = 0.5`. -/
def time_to_color_rgb_core (t : ℚ) : ℤ × ℤ × ℤ :=
  if t < 1/2 then (255, pyInt (255 * (t * 2)), 0)
  else (255, 255, pyInt (255 * ((t - 1/2) * 2)))

/-- `export_geojson.time_to_color_rgb` (lines 66-83).  Gray `(128,128,128)`
for `burn_time < 0` or `max_time <= 0`; otherwise the two-segment gradient
on `t = burn_time / max_time`. -/
def time_to_color_rgb (burn_time max_time : ℤ) : ℤ × ℤ × ℤ :=
  if burn_time < 0 ∨ max_time ≤ 0 then (128, 128, 128)
  else time_to_color_rgb_core ((burn_time : ℚ) / (max_time : ℚ))

/-- The colormap names accepted by `visualize_openstreetmap.time_to_color`
(the CLI restricts to YlOrRd, Reds, inferno; any name other than YlOrRd and
inferno takes the final `else` branch, here represented by `Reds`). -/
inductive Colormap where
  | YlOrRd
  | inferno
  | Reds
deriving DecidableEq

/-- The palette branches of `FireSimulationVisualizer.time_to_color` on
the normalized time `t`. -/
def time_to_color_core (t : ℚ) (colormap : Colormap) : ℤ × ℤ × ℤ :=
  match colormap with
    | .YlOrRd =>
        if t < 1/2 then
          (255, pyInt (255 - (255 - 165) * (t * 2)), pyInt (200 * (1 - t * 2)))
        else
          (pyInt (255 - (255 - 139) * ((t - 1/2) * 2)),
           pyInt (165 * (1 - (t - 1/2) * 2)), 0)
    | .inferno =>
        if t < 1/4 then
          (pyInt (t * 4 * 120), 0, pyInt (t * 4 * 150))
        else if t < 1/2 then
          (pyInt (120 + (255 - 120) * ((t - 1/4) * 4)),
           pyInt ((t - 1/4) * 4 * 100),
           pyInt (150 * (1 - (t - 1/4) * 4)))
        else if t < 3/4 then
          (255, pyInt (100 + (200 - 100) * ((t - 1/2) * 4)), 0)
        else
          (255, pyInt (200 + (255 - 200) * ((t - 3/4) * 4)),
           pyInt ((t - 3/4) * 4 * 150))
    | .Reds =>
        let intensity : ℚ := 1 - t
        (pyInt (139 + (255 - 139) * intensity),
         pyInt (69 * (1 - intensity)), pyInt (19 * (1 - intensity)))

/-- `FireSimulationVisualizer.time_to_color` (lines 155-214).  Returns
Python `None` (here `none`) for `burn_time < 0`; otherwise the rgb triple
later formatted as a hex string (the string formatting is pure
serialization and not modelled).  `t = burn_time / max_time if max_time > 0
else 0`. -/
def time_to_color (burn_time max_time : ℤ) (colormap : Colormap) :
    Option (ℤ × ℤ × ℤ) :=
  if burn_time < 0 then none
  else some (time_to_color_core
    (if 0 < max_time then (burn_time : ℚ) / (max_time : ℚ) else 0) colormap)

/-- The `burn_time_normalized` property written by
`export_geojson.export_to_geojson` (line 131):
`float(bt / max_time) if max_time > 0 else 0`. -/
def burn_time_normalized (bt max_time : ℤ) : Option ℚ :=
  if 0 < max_time then pyDiv (bt : ℚ) (max_time : ℚ) else some 0

/-- The color-interpolation parameter of
`visualize_openstreetmap.time_to_color` (line 176):
`t = burn_time / max_time if max_time > 0 else 0`. -/
def color_t_param (bt max_time : ℤ) : Option ℚ :=
  if 0 < max_time then pyDiv (bt : ℚ) (max_time : ℚ) else some 0

/-- Row-major enumeration of the grid cells, as the nested
`for y in range(grid_height): for x in range(grid_width):` loops. -/
def cells (H W : ℕ) : List (ℕ × ℕ) :=
  (List.range H).flatMap (fun y => (List.range W).map (fun x => (y, x)))

lemma mem_cells (H W : ℕ) (c : ℕ × ℕ) :
    c ∈ cells H W ↔ c.1 < H ∧ c.2 < W := by
  cases c with
  | mk y x =>
      simp only [cells, List.mem_flatMap, List.mem_map, List.mem_range]
      constructor
      · rintro ⟨y0, hy0, x0, hx0, heq⟩
        cases heq
        exact ⟨hy0, hx0⟩
      · rintro ⟨hy, hx⟩
        exact ⟨y, hy, x, hx, rfl⟩

/-- `numpy .max()` over the burn-time matrix restricted to the grid.
All entries are `≥ -1`, so folding `max` from `-1` agrees with numpy's
maximum on every non-empty grid. -/
def max_burn_time (B : ℕ → ℕ → ℤ) (H W : ℕ) : ℤ :=
  ((cells H W).map (fun c => B c.1 c.2)).foldl max (-1)

lemma foldl_max_neg_one (l : List ℤ) (h : ∀ v ∈ l, v = -1) :
    l.foldl max (-1) = -1 := by
  induction l with
  | nil => rfl
  | cons a l ih =>
      have ha : a = -1 := h a (List.mem_cons_self a l)
      have hmax : max (-1 : ℤ) a = -1 := by simp [ha]
      simpa [hmax] using ih (fun v hv => h v (List.mem_cons_of_mem a hv))

/-- One frame entry of `prepare_animation_data`: `time`, the list of
burning cell centers, and the instantaneous counts. -/
structure FrameSample where
  time : ℕ
  burning : List (ℚ × ℚ)
  burned_count : ℕ
  burning_count : ℕ
deriving DecidableEq

/-- The full payload returned by
`FireAnimationGenerator.prepare_animation_data` (lines 130-153).
`bounds` is `(north, south, east, west)`; `grid` is `(width, height)`. -/
structure AnimData where
  frames : List FrameSample
  total_frames : ℕ
  sample_rate : ℤ
  burned_pixels : List (ℚ × ℚ × ℤ)
  bounds : ℚ × ℚ × ℚ × ℚ
  center : ℚ × ℚ
  pixel_size : ℚ × ℚ
  grid : ℕ × ℕ
deriving DecidableEq

/-- Loop body of the per-frame cell classification (lines 94-102):
append the cell-center lat/lon to the burning list when the state is 1,
to the burned list when it is 2, otherwise leave both untouched. -/
def anim_frame_step (cfg : GridConfig) (frame : ℕ → ℕ → ℤ)
    (acc : List (ℚ × ℚ) × List (ℚ × ℚ)) (c : ℕ × ℕ) :
    List (ℚ × ℚ) × List (ℚ × ℚ) :=
  if frame c.1 c.2 = 1 then (acc.1 ++ [anim_pixel_to_latlon cfg c.2 c.1], acc.2)
  else if frame c.1 c.2 = 2 then (acc.1, acc.2 ++ [anim_pixel_to_latlon cfg c.2 c.1])
  else acc

/-- The (burning_pixels, burned_pixels) pair built by the nested loops of
`prepare_animation_data` over one snapshot. -/
def anim_frame_lists (cfg : GridConfig) (frame : ℕ → ℕ → ℤ) :
    List (ℚ × ℚ) × List (ℚ × ℚ) :=
  (cells cfg.grid_height cfg.grid_width).foldl (anim_frame_step cfg frame) ([], [])

/-- One element of `frames_data` (lines 104-109). -/
def anim_frame_data (cfg : GridConfig) (states : ℕ → ℕ → ℕ → ℤ) (t : ℕ) :
    FrameSample :=
  let p := anim_frame_lists cfg (states t)
  { time := t, burning := p.1, burned_count := p.2.length,
    burning_count := p.1.length }

/-- The time indices visited by `for t in range(0, total, step)` for a
positive step: the multiples of `step` below `total`, in increasing
order. -/
def sample_times (total step : ℕ) : List ℕ :=
  (List.range total).filter (fun t => t % step == 0)

/-- `burned_pixels_with_time` (lines 118-128): every cell whose burn time
is `≥ 0`, with its projected center and time, in row-major order. -/
def burned_pixels_with_time (cfg : GridConfig) (B : ℕ → ℕ → ℤ) :
    List (ℚ × ℚ × ℤ) :=
  (cells cfg.grid_height cfg.grid_width).foldl
    (fun acc c =>
      if 0 ≤ B c.1 c.2 then
        acc ++ [((anim_pixel_to_latlon cfg c.2 c.1).1,
                 (anim_pixel_to_latlon cfg c.2 c.1).2, B c.1 c.2)]
      else acc) []

/-- `FireAnimationGenerator.prepare_animation_data` (lines 78-153).
Python `range(0, total_frames, sample_rate)` raises ValueError when the
step is zero (modelled as `Except.error ()`), is empty when the step is
negative, and visits the multiples of the step otherwise. -/
def prepare_animation_data (cfg : GridConfig) (T : ℕ)
    (states : ℕ → ℕ → ℕ → ℤ) (sample_rate : ℤ) : Except Unit AnimData :=
  if sample_rate = 0 then .error ()
  else
    let ts : List ℕ := if sample_rate < 0 then [] else sample_times T sample_rate.toNat
    let B := burn_time_matrix states T
    .ok { frames := ts.map (anim_frame_data cfg states),
          total_frames := T,
          sample_rate := sample_rate,
          burned_pixels := burned_pixels_with_time cfg B,
          bounds := (north_lat cfg, south_lat cfg, east_lon cfg, west_lon cfg),
          center := (cfg.center_lat, cfg.center_lon),
          pixel_size := (delta_lat cfg / (cfg.grid_height : ℚ),
                         delta_lon cfg / (cfg.grid_width : ℚ)),
          grid := (cfg.grid_width, cfg.grid_height) }

/-- Projection of a `prepare_animation_data` result onto its frame list,
`none` when the call raised. -/
def framesOf (e : Except Unit AnimData) : Option (List FrameSample) :=
  e.toOption.map (fun d => d.frames)

/-- The record returned by `FireSimulationVisualizer.get_statistics`
(lines 408-430), minus the bounds sub-record which repeats the four
bounding-box defs above verbatim. -/
structure SimStats where
  total_pixels : ℕ
  burned_pixels : ℕ
  burned_percentage : ℚ
  area_total_ha : ℚ
  area_burned_ha : ℚ
  simulation_frames : ℕ
  max_burn_time_val : ℤ
deriving DecidableEq

/-- `get_statistics`: `last_frame = fire_map[-1]`, i.e. snapshot `T - 1`;
`burned_pixels = (last_frame == 2).sum()`; `total_pixels = last_frame.size`;
`area_per_pixel = pixel_scale_m ** 2 / 10000`. -/
def get_statistics (cfg : GridConfig) (states : ℕ → ℕ → ℕ → ℤ) (T : ℕ) :
    SimStats :=
  let last_frame := states (T - 1)
  let burned := (cells cfg.grid_height cfg.grid_width).countP
    (fun c => last_frame c.1 c.2 == 2)
  let total := cfg.grid_height * cfg.grid_width
  let area_per_pixel := cfg.pixel_scale_m ^ 2 / 10000
  { total_pixels := total,
    burned_pixels := burned,
    burned_percentage := (burned : ℚ) / (total : ℚ) * 100,
    area_total_ha := (total : ℚ) * area_per_pixel,
    area_burned_ha := (burned : ℚ) * area_per_pixel,
    simulation_frames := T,
    max_burn_time_val :=
      max_burn_time (burn_time_matrix states T) cfg.grid_height cfg.grid_width }

/-- Concrete configuration used by witnesses: the spec section 8 scenario
`grid_height = grid_width = 2`, `center = (0, 0)`, `cell_scale_m = 100`
(at the equator `cos(0) = 1`). -/
def cfgEx : GridConfig :=
  { center_lat := 0, center_lon := 0, grid_height := 2, grid_width := 2,
    pixel_scale_m := 100, cos_abs_lat := 1 }

/-- The spec section 8 scenario StateStack
`[[[0,0],[0,0]], [[1,0],[0,0]], [[2,1],[0,0]]]` (T = 3), extended by zeros. -/
def statesEx : ℕ → ℕ → ℕ → ℤ := fun t y x =>
  if t = 1 ∧ y = 0 ∧ x = 0 then 1
  else if t = 2 ∧ y = 0 ∧ x = 0 then 2
  else if t = 2 ∧ y = 0 ∧ x = 1 then 1
  else 0

lemma statesEx_dom :
    ∀ t y x, statesEx t y x = 0 ∨ statesEx t y x = 1 ∨ statesEx t y x = 2 := by
  intro t y x
  unfold statesEx
  split_ifs <;> simp

/-- C1: for a StateStack with cell values in {0,1,2}, the burn-time
reduction yields `-1` exactly at the cells whose state is 0 at every time
step, and at every other cell the least time index with state ≥ 1; at that
index the state is ≥ 1 and at all earlier indices it is 0. -/
theorem c1_burn_time_first_ignition (states : ℕ → ℕ → ℕ → ℤ) (T : ℕ)
    (hdom : ∀ t y x, states t y x = 0 ∨ states t y x = 1 ∨ states t y x = 2)
    (y x : ℕ) :
    ((∀ t < T, states t y x = 0) → burn_time_matrix states T y x = -1)
    ∧ ((∃ t, t < T ∧ states t y x ≠ 0) →
        ∃ τ, τ < T ∧ burn_time_matrix states T y x = (τ : ℤ)
          ∧ (1 : ℤ) ≤ states τ y x ∧ ∀ t2 < τ, states t2 y x = 0) := by
  constructor
  · intro h
    apply burn_time_matrix_eq_neg_one
    intro t ht hle
    rw [h t ht] at hle
    omega
  · rintro ⟨t0, ht0, hne⟩
    have hge : (1 : ℤ) ≤ states t0 y x := by
      rcases hdom t0 y x with h | h | h
      · exact absurd h hne
      · omega
      · omega
    obtain ⟨τ, hτT, hval, higτ, hmin⟩ :=
      burn_time_matrix_first states T y x ⟨t0, ht0, hge⟩
    refine ⟨τ, hτT, hval, higτ, fun t2 ht2 => ?_⟩
    have hn := hmin t2 ht2
    rcases hdom t2 y x with h | h | h
    · exact h
    · omega
    · omega

/-- Witness for C1 at the spec section 8 scenario stack. -/
theorem c1_witness :
    (∀ t y x, statesEx t y x = 0 ∨ statesEx t y x = 1 ∨ statesEx t y x = 2)
    ∧ (((∀ t < 3, statesEx t 0 0 = 0) → burn_time_matrix statesEx 3 0 0 = -1)
       ∧ ((∃ t, t < 3 ∧ statesEx t 0 0 ≠ 0) →
           ∃ τ : ℕ, τ < 3 ∧ burn_time_matrix statesEx 3 0 0 = (τ : ℤ)
             ∧ (1 : ℤ) ≤ statesEx τ 0 0 ∧ ∀ t2 < τ, statesEx t2 0 0 = 0)) :=
  ⟨statesEx_dom, c1_burn_time_first_ignition statesEx 3 statesEx_dom 0 0⟩

/-- C2: with positive grid dimensions and cell scale and center latitude
strictly inside the poles, the corner projection maps `(0,0)` to the
north-west bounding-box corner and `(grid_width, grid_height)` to the
south-east corner. -/
theorem c2_projection_corners (cfg : GridConfig)
    (hH : 0 < cfg.grid_height) (hW : 0 < cfg.grid_width)
    (hscale : 0 < cfg.pixel_scale_m) (hlat : |cfg.center_lat| < 90) :
    pixel_to_latlon cfg 0 0 = (north_lat cfg, west_lon cfg)
    ∧ pixel_to_latlon cfg (cfg.grid_width : ℤ) (cfg.grid_height : ℤ)
        = (south_lat cfg, east_lon cfg) := by
  have hHq : ((cfg.grid_height : ℚ)) ≠ 0 := by
    exact_mod_cast Nat.pos_iff_ne_zero.mp hH
  have hWq : ((cfg.grid_width : ℚ)) ≠ 0 := by
    exact_mod_cast Nat.pos_iff_ne_zero.mp hW
  constructor
  · simp [pixel_to_latlon]
  · simp only [pixel_to_latlon, Prod.mk.injEq, Int.cast_natCast]
    constructor
    · rw [div_self hHq]
      unfold north_lat south_lat
      ring
    · rw [div_self hWq]
      unfold west_lon east_lon
      ring

/-- Witness for C2 at the concrete equatorial 2x2 configuration. -/
theorem c2_witness :
    (0 < cfgEx.grid_height ∧ 0 < cfgEx.grid_width ∧ 0 < cfgEx.pixel_scale_m
      ∧ |cfgEx.center_lat| < 90)
    ∧ (pixel_to_latlon cfgEx 0 0 = (north_lat cfgEx, west_lon cfgEx)
       ∧ pixel_to_latlon cfgEx (cfgEx.grid_width : ℤ) (cfgEx.grid_height : ℤ)
           = (south_lat cfgEx, east_lon cfgEx)) :=
  ⟨⟨by decide, by decide, by decide, by decide⟩,
   c2_projection_corners cfgEx (by decide) (by decide) (by decide) (by decide)⟩

/-- C3: cell bounds tile the grid exactly: the east edge of cell `(x,y)`
is the west edge of cell `(x+1,y)`, and its south edge is the north edge
of cell `(x,y+1)`.  `get_pixel_bounds` returns
`((south, west), (north, east))`. -/
theorem c3_bounds_tile (cfg : GridConfig) (x y : ℕ)
    (hx : x < cfg.grid_width) (hy : y < cfg.grid_height) :
    (get_pixel_bounds cfg (x : ℤ) (y : ℤ)).2.2
        = (get_pixel_bounds cfg ((x : ℤ) + 1) (y : ℤ)).1.2
    ∧ (get_pixel_bounds cfg (x : ℤ) (y : ℤ)).1.1
        = (get_pixel_bounds cfg (x : ℤ) ((y : ℤ) + 1)).2.1 := by
  constructor <;> rfl

/-- Witness for C3 at cell (0,0) of the 2x2 configuration. -/
theorem c3_witness :
    ((0 : ℕ) < cfgEx.grid_width ∧ (0 : ℕ) < cfgEx.grid_height)
    ∧ ((get_pixel_bounds cfgEx ((0 : ℕ) : ℤ) ((0 : ℕ) : ℤ)).2.2
          = (get_pixel_bounds cfgEx (((0 : ℕ) : ℤ) + 1) ((0 : ℕ) : ℤ)).1.2
       ∧ (get_pixel_bounds cfgEx ((0 : ℕ) : ℤ) ((0 : ℕ) : ℤ)).1.1
          = (get_pixel_bounds cfgEx ((0 : ℕ) : ℤ) (((0 : ℕ) : ℤ) + 1)).2.1) :=
  ⟨⟨by decide, by decide⟩, c3_bounds_tile cfgEx 0 0 (by decide) (by decide)⟩

/-- First stack for the C5 witness: ignites everywhere at t = 0, then
reports state 2 afterwards. -/
def statesAEx : ℕ → ℕ → ℕ → ℤ := fun t _ _ => if t = 0 then 1 else 2

/-- Second stack for the C5 witness: agrees with `statesAEx` up to the
first ignition (t = 0) and differs afterwards (state 0 instead of 2). -/
def statesBEx : ℕ → ℕ → ℕ → ℤ := fun t _ _ => if t = 0 then 1 else 0

/-- C5: two StateStacks that agree, at every cell, on all snapshots up to
and including that cell's first time step with state ≥ 1 (and on all
snapshots for cells that never reach state ≥ 1) produce the same
IgnitionMatrix. -/
theorem c5_noninterference (states1 states2 : ℕ → ℕ → ℕ → ℤ) (T : ℕ)
    (hagree : ∀ y x τ, τ < T → (1 : ℤ) ≤ states1 τ y x →
        (∀ t < τ, ¬ (1 : ℤ) ≤ states1 t y x) →
        ∀ t ≤ τ, states1 t y x = states2 t y x)
    (hagree0 : ∀ y x, (∀ t < T, ¬ (1 : ℤ) ≤ states1 t y x) →
        ∀ t < T, states1 t y x = states2 t y x) :
    ∀ y x, burn_time_matrix states1 T y x = burn_time_matrix states2 T y x := by
  intro y x
  by_cases hex : ∃ t, t < T ∧ (1 : ℤ) ≤ states1 t y x
  · obtain ⟨τ, hτT, hval1, hig, hmin⟩ := burn_time_matrix_first states1 T y x hex
    have heq : ∀ t ≤ τ, states1 t y x = states2 t y x := hagree y x τ hτT hig hmin
    have hig2 : (1 : ℤ) ≤ states2 τ y x := by rw [← heq τ le_rfl]; exact hig
    have hmin2 : ∀ t < τ, ¬ (1 : ℤ) ≤ states2 t y x := fun t ht => by
      rw [← heq t (le_of_lt ht)]; exact hmin t ht
    rw [hval1, burn_time_matrix_of_first states2 T y x τ hτT hig2 hmin2]
  · push_neg at hex
    have hmin1 : ∀ t < T, ¬ (1 : ℤ) ≤ states1 t y x := fun t ht hle =>
      absurd hle (by have := hex t ht; omega)
    have heq : ∀ t < T, states1 t y x = states2 t y x := hagree0 y x hmin1
    have hmin2 : ∀ t < T, ¬ (1 : ℤ) ≤ states2 t y x := fun t ht => by
      rw [← heq t ht]; exact hmin1 t ht
    rw [burn_time_matrix_eq_neg_one states1 T y x hmin1,
        burn_time_matrix_eq_neg_one states2 T y x hmin2]

lemma statesAB_agree1 : ∀ y x τ, τ < 2 → (1 : ℤ) ≤ statesAEx τ y x →
    (∀ t < τ, ¬ (1 : ℤ) ≤ statesAEx t y x) →
    ∀ t ≤ τ, statesAEx t y x = statesBEx t y x := by
  intro y x τ hτ hig hmin t ht
  interval_cases τ
  · have h0 : t = 0 := Nat.le_zero.mp ht
    subst h0
    simp [statesAEx, statesBEx]
  · exact absurd (by simp [statesAEx] : (1 : ℤ) ≤ statesAEx 0 y x)
      (hmin 0 (by omega))

lemma statesAB_agree2 : ∀ y x, (∀ t < 2, ¬ (1 : ℤ) ≤ statesAEx t y x) →
    ∀ t < 2, statesAEx t y x = statesBEx t y x := by
  intro y x h t ht
  exact absurd (by simp [statesAEx] : (1 : ℤ) ≤ statesAEx 0 y x) (h 0 (by omega))

/-- Witness for C5: the two concrete stacks differ after first ignition
yet get the same burn time at cell (0,0). -/
theorem c5_witness :
    (∀ y x τ, τ < 2 → (1 : ℤ) ≤ statesAEx τ y x →
        (∀ t < τ, ¬ (1 : ℤ) ≤ statesAEx t y x) →
        ∀ t ≤ τ, statesAEx t y x = statesBEx t y x)
    ∧ (∀ y x, (∀ t < 2, ¬ (1 : ℤ) ≤ statesAEx t y x) →
        ∀ t < 2, statesAEx t y x = statesBEx t y x)
    ∧ burn_time_matrix statesAEx 2 0 0 = burn_time_matrix statesBEx 2 0 0 :=
  ⟨statesAB_agree1, statesAB_agree2,
   c5_noninterference statesAEx statesBEx 2 statesAB_agree1 statesAB_agree2 0 0⟩

/-- C6: the three duplicated projections are instances of the spec's
single parameterized formula: the animation script uses offset 0.5, the
map script and the GeoJSON exporter's polygon north-west corner use
offset 0; hence the animation point lies exactly half a cell south and
east of the other two. -/
theorem c6_projection_refinement (cfg : GridConfig) (x y : ℤ) :
    anim_pixel_to_latlon cfg x y = spec_project cfg x y (1/2)
    ∧ pixel_to_latlon cfg x y = spec_project cfg x y 0
    ∧ (geo_nw_lat cfg y, geo_nw_lon cfg x) = spec_project cfg x y 0
    ∧ (pixel_to_polygon cfg x y).head? = some (geo_nw_lon cfg x, geo_nw_lat cfg y)
    ∧ (anim_pixel_to_latlon cfg x y).1
        = (pixel_to_latlon cfg x y).1 - (delta_lat cfg / (cfg.grid_height : ℚ)) / 2
    ∧ (anim_pixel_to_latlon cfg x y).2
        = (pixel_to_latlon cfg x y).2 + (delta_lon cfg / (cfg.grid_width : ℚ)) / 2 := by
  refine ⟨rfl, ?_, ?_, rfl, ?_, ?_⟩
  · simp only [pixel_to_latlon, spec_project, Prod.mk.injEq]
    constructor <;> ring
  · simp only [geo_nw_lat, geo_nw_lon, geo_pixel_lat, geo_pixel_lon,
      spec_project, Prod.mk.injEq]
    constructor <;> ring
  · simp only [anim_pixel_to_latlon, pixel_to_latlon]
    ring
  · simp only [anim_pixel_to_latlon, pixel_to_latlon]
    ring

lemma time_to_color_rgb_pos (bt m : ℤ) (hbt : 0 ≤ bt) (hm : 1 ≤ m) :
    time_to_color_rgb bt m = time_to_color_rgb_core ((bt : ℚ) / (m : ℚ)) := by
  unfold time_to_color_rgb
  rw [if_neg (by omega)]

lemma time_to_color_pos (bt m : ℤ) (hbt : 0 ≤ bt) (hm : 1 ≤ m)
    (cmap : Colormap) :
    time_to_color bt m cmap
      = some (time_to_color_core ((bt : ℚ) / (m : ℚ)) cmap) := by
  unfold time_to_color
  rw [if_neg (by omega), if_pos (by omega)]

/-- C7: both color mappers return their defined unburned sentinel at
ignition time -1 (gray for the GeoJSON exporter, Python None for the map
script), and for every `max_time ≥ 1` the colors at ignition times 0 and
`max_time` are the two fixed endpoint colors of the chosen palette. -/
theorem c7_color_sentinel_endpoints :
    (∀ m : ℤ, time_to_color_rgb (-1) m = (128, 128, 128))
    ∧ (∀ (m : ℤ) (cmap : Colormap), time_to_color (-1) m cmap = none)
    ∧ (∀ m : ℤ, 1 ≤ m →
        time_to_color_rgb 0 m = (255, 0, 0)
        ∧ time_to_color_rgb m m = (255, 255, 255)
        ∧ time_to_color 0 m Colormap.YlOrRd = some (255, 255, 200)
        ∧ time_to_color m m Colormap.YlOrRd = some (139, 0, 0)
        ∧ time_to_color 0 m Colormap.inferno = some (0, 0, 0)
        ∧ time_to_color m m Colormap.inferno = some (255, 255, 150)
        ∧ time_to_color 0 m Colormap.Reds = some (255, 0, 0)
        ∧ time_to_color m m Colormap.Reds = some (139, 69, 19)) := by
  have hz : ∀ m : ℤ, ((0 : ℤ) : ℚ) / (m : ℚ) = 0 := by intro m; simp
  have ho : ∀ m : ℤ, 1 ≤ m → ((m : ℤ) : ℚ) / (m : ℚ) = 1 := fun m hm =>
    div_self (Int.cast_ne_zero.mpr (by omega))
  refine ⟨?_, ?_, ?_⟩
  · intro m
    unfold time_to_color_rgb
    rw [if_pos (Or.inl (by omega))]
  · intro m cmap
    unfold time_to_color
    rw [if_pos (by omega)]
  · intro m hm
    refine ⟨?_, ?_, ?_, ?_, ?_, ?_, ?_, ?_⟩
    · rw [time_to_color_rgb_pos 0 m le_rfl hm, hz m]
      norm_num [time_to_color_rgb_core, pyInt]
    · rw [time_to_color_rgb_pos m m (by omega) hm, ho m hm]
      norm_num [time_to_color_rgb_core, pyInt]
    · rw [time_to_color_pos 0 m le_rfl hm, hz m]
      norm_num [time_to_color_core, pyInt]
    · rw [time_to_color_pos m m (by omega) hm, ho m hm]
      norm_num [time_to_color_core, pyInt]
    · rw [time_to_color_pos 0 m le_rfl hm, hz m]
      norm_num [time_to_color_core, pyInt]
    · rw [time_to_color_pos m m (by omega) hm, ho m hm]
      norm_num [time_to_color_core, pyInt]
    · rw [time_to_color_pos 0 m le_rfl hm, hz m]
      norm_num [time_to_color_core, pyInt]
    · rw [time_to_color_pos m m (by omega) hm, ho m hm]
      norm_num [time_to_color_core, pyInt]

/-- Witness for C7 at `max_time = 3`. -/
theorem c7_witness :
    (1 : ℤ) ≤ 3
    ∧ time_to_color_rgb 0 3 = (255, 0, 0)
    ∧ time_to_color_rgb 3 3 = (255, 255, 255)
    ∧ time_to_color 3 3 Colormap.YlOrRd = some (139, 0, 0)
    ∧ time_to_color (-1) 3 Colormap.YlOrRd = none :=
  ⟨by decide,
   (c7_color_sentinel_endpoints.2.2 3 (by decide)).1,
   (c7_color_sentinel_endpoints.2.2 3 (by decide)).2.1,
   (c7_color_sentinel_endpoints.2.2 3 (by decide)).2.2.2.1,
   c7_color_sentinel_endpoints.2.1 3 Colormap.YlOrRd⟩

/-- All-unburned stack used by the C8 witness. -/
def statesZeroEx : ℕ → ℕ → ℕ → ℤ := fun _ _ _ => 0

lemma statesZeroEx_no :
    ∀ t y x, t < 1 → y < 1 → x < 1 → ¬ (1 : ℤ) ≤ statesZeroEx t y x := by
  intro t y x _ _ _
  norm_num [statesZeroEx]

/-- C8: when no in-grid cell ever ignites the matrix maximum is `-1`
(numpy's max of an all-`-1` matrix), every cell's normalized burn time is
0, any non-positive `max_time` normalizes exactly like `max_time = 0`, and
normalization (both the GeoJSON property and the color parameter) never
divides by zero and is 0 whenever `max_time = 0`. -/
theorem c8_normalization_safe (states : ℕ → ℕ → ℕ → ℤ) (T H W : ℕ)
    (hno : ∀ t y x, t < T → y < H → x < W → ¬ (1 : ℤ) ≤ states t y x) :
    max_burn_time (burn_time_matrix states T) H W = -1
    ∧ (∀ y x, burn_time_normalized (burn_time_matrix states T y x)
        (max_burn_time (burn_time_matrix states T) H W) = some 0)
    ∧ (∀ bt m : ℤ, m ≤ 0 → burn_time_normalized bt m = burn_time_normalized bt 0)
    ∧ (∀ bt m : ℤ, ∃ v, burn_time_normalized bt m = some v ∧ (m = 0 → v = 0))
    ∧ (∀ bt m : ℤ, ∃ v, color_t_param bt m = some v ∧ (m = 0 → v = 0)) := by
  have hmax : max_burn_time (burn_time_matrix states T) H W = -1 := by
    apply foldl_max_neg_one
    intro v hv
    simp only [List.mem_map] at hv
    obtain ⟨c, hc, rfl⟩ := hv
    obtain ⟨h1, h2⟩ := (mem_cells H W c).mp hc
    exact burn_time_matrix_eq_neg_one states T c.1 c.2
      (fun t ht => hno t c.1 c.2 ht h1 h2)
  refine ⟨hmax, ?_, ?_, ?_, ?_⟩
  · intro y x
    rw [hmax]
    unfold burn_time_normalized
    rw [if_neg (by omega)]
  · intro bt m hm
    unfold burn_time_normalized
    rw [if_neg (by omega), if_neg (by omega)]
  · intro bt m
    by_cases h : 0 < m
    · refine ⟨(bt : ℚ) / (m : ℚ), ?_, fun h0 => absurd h0 (by omega)⟩
      unfold burn_time_normalized pyDiv
      rw [if_pos h, if_neg (Int.cast_ne_zero.mpr (by omega))]
    · exact ⟨0, by unfold burn_time_normalized; rw [if_neg h], fun _ => rfl⟩
  · intro bt m
    by_cases h : 0 < m
    · refine ⟨(bt : ℚ) / (m : ℚ), ?_, fun h0 => absurd h0 (by omega)⟩
      unfold color_t_param pyDiv
      rw [if_pos h, if_neg (Int.cast_ne_zero.mpr (by omega))]
    · exact ⟨0, by unfold color_t_param; rw [if_neg h], fun _ => rfl⟩

/-- Witness for C8 at the all-unburned 1x1x1 stack. -/
theorem c8_witness :
    (∀ t y x, t < 1 → y < 1 → x < 1 → ¬ (1 : ℤ) ≤ statesZeroEx t y x)
    ∧ (max_burn_time (burn_time_matrix statesZeroEx 1) 1 1 = -1
       ∧ (∀ y x, burn_time_normalized (burn_time_matrix statesZeroEx 1 y x)
           (max_burn_time (burn_time_matrix statesZeroEx 1) 1 1) = some 0)
       ∧ (∀ bt m : ℤ, m ≤ 0 →
           burn_time_normalized bt m = burn_time_normalized bt 0)
       ∧ (∀ bt m : ℤ, ∃ v, burn_time_normalized bt m = some v ∧ (m = 0 → v = 0))
       ∧ (∀ bt m : ℤ, ∃ v, color_t_param bt m = some v ∧ (m = 0 → v = 0))) :=
  ⟨statesZeroEx_no, c8_normalization_safe statesZeroEx 1 1 1 statesZeroEx_no⟩

lemma anim_frame_lists_go (cfg : GridConfig) (f : ℕ → ℕ → ℤ)
    (l : List (ℕ × ℕ)) (a b : List (ℚ × ℚ)) :
    l.foldl (anim_frame_step cfg f) (a, b)
      = (a ++ (l.filter (fun c => f c.1 c.2 == 1)).map
            (fun c => anim_pixel_to_latlon cfg c.2 c.1),
         b ++ (l.filter (fun c => f c.1 c.2 == 2)).map
            (fun c => anim_pixel_to_latlon cfg c.2 c.1)) := by
  induction l generalizing a b with
  | nil => simp
  | cons c l ih =>
      by_cases h1 : f c.1 c.2 = 1
      · simp [List.foldl_cons, anim_frame_step, h1, ih, List.filter_cons]
      · by_cases h2 : f c.1 c.2 = 2
        · simp [List.foldl_cons, anim_frame_step, h1, h2, ih, List.filter_cons]
        · simp [List.foldl_cons, anim_frame_step, h1, h2, ih, List.filter_cons]

lemma anim_frame_lists_eq (cfg : GridConfig) (f : ℕ → ℕ → ℤ) :
    anim_frame_lists cfg f
      = (((cells cfg.grid_height cfg.grid_width).filter
            (fun c => f c.1 c.2 == 1)).map
            (fun c => anim_pixel_to_latlon cfg c.2 c.1),
         ((cells cfg.grid_height cfg.grid_width).filter
            (fun c => f c.1 c.2 == 2)).map
            (fun c => anim_pixel_to_latlon cfg c.2 c.1)) := by
  unfold anim_frame_lists
  simpa using
    anim_frame_lists_go cfg f (cells cfg.grid_height cfg.grid_width) [] []

lemma anim_frame_data_eq (cfg : GridConfig) (states : ℕ → ℕ → ℕ → ℤ) (t : ℕ) :
    anim_frame_data cfg states t
      = { time := t
          burning := ((cells cfg.grid_height cfg.grid_width).filter
              (fun c => states t c.1 c.2 == 1)).map
              (fun c => anim_pixel_to_latlon cfg c.2 c.1)
          burned_count := (cells cfg.grid_height cfg.grid_width).countP
              (fun c => states t c.1 c.2 == 2)
          burning_count := (cells cfg.grid_height cfg.grid_width).countP
              (fun c => states t c.1 c.2 == 1) } := by
  unfold anim_frame_data
  rw [anim_frame_lists_eq]
  simp [List.countP_eq_length_filter]

/-- C4: for every stride `s ≥ 1` the sampler succeeds and emits frames
exactly at the multiples of `s` below `T`, in increasing order; each
frame carries its time, the projected centers of the cells with state 1
at that time, their count, and the count of cells with state 2 in that
snapshot alone. -/
theorem c4_frame_sampler (cfg : GridConfig) (T : ℕ) (states : ℕ → ℕ → ℕ → ℤ)
    (s : ℤ) (hs : 1 ≤ s) :
    framesOf (prepare_animation_data cfg T states s)
      = some ((sample_times T s.toNat).map (fun t =>
          { time := t
            burning := ((cells cfg.grid_height cfg.grid_width).filter
                (fun c => states t c.1 c.2 == 1)).map
                (fun c => anim_pixel_to_latlon cfg c.2 c.1)
            burned_count := (cells cfg.grid_height cfg.grid_width).countP
                (fun c => states t c.1 c.2 == 2)
            burning_count := (cells cfg.grid_height cfg.grid_width).countP
                (fun c => states t c.1 c.2 == 1) : FrameSample }))
    ∧ (∀ t, t ∈ sample_times T s.toNat ↔ (t < T ∧ s.toNat ∣ t))
    ∧ List.Sorted (· < ·) (sample_times T s.toNat) := by
  refine ⟨?_, ?_, ?_⟩
  · simp only [prepare_animation_data, framesOf]
    rw [if_neg (by omega : ¬ s = 0), if_neg (by omega : ¬ s < 0)]
    simp [Except.toOption, anim_frame_data_eq]
  · intro t
    simp [sample_times, List.mem_filter, List.mem_range,
      Nat.dvd_iff_mod_eq_zero, and_comm]
  · simpa [List.Sorted, sample_times] using
      (List.pairwise_lt_range T).filter (fun t => t % s.toNat == 0)

/-- Witness for C4: stride 2 over the 4-snapshot prefix of the scenario
stack samples exactly the times 0 and 2. -/
theorem c4_witness :
    ((1 : ℤ) ≤ 2 ∧ sample_times 4 ((2 : ℤ)).toNat = [0, 2])
    ∧ (framesOf (prepare_animation_data cfgEx 4 statesEx 2)
        = some ((sample_times 4 ((2 : ℤ)).toNat).map (fun t =>
            { time := t
              burning := ((cells cfgEx.grid_height cfgEx.grid_width).filter
                  (fun c => statesEx t c.1 c.2 == 1)).map
                  (fun c => anim_pixel_to_latlon cfgEx c.2 c.1)
              burned_count := (cells cfgEx.grid_height cfgEx.grid_width).countP
                  (fun c => statesEx t c.1 c.2 == 2)
              burning_count := (cells cfgEx.grid_height cfgEx.grid_width).countP
                  (fun c => statesEx t c.1 c.2 == 1) : FrameSample }))
       ∧ (∀ t, t ∈ sample_times 4 ((2 : ℤ)).toNat ↔ (t < 4 ∧ (2 : ℤ).toNat ∣ t))
       ∧ List.Sorted (· < ·) (sample_times 4 ((2 : ℤ)).toNat)) :=
  ⟨⟨by decide, by decide⟩, c4_frame_sampler cfgEx 4 statesEx 2 (by decide)⟩

/-- C9 counterexample: at stride `-1` the sampler does not fail; it
returns a payload whose frame list is empty, because Python
`range(0, T, step)` only raises for `step == 0` and is empty for a
negative step. -/
theorem c9_counterexample :
    (prepare_animation_data cfgEx 3 statesEx (-1)).toOption.isSome = true
    ∧ framesOf (prepare_animation_data cfgEx 3 statesEx (-1)) = some [] := by
  constructor
  · decide
  · decide

/-- C9 amended: only stride `0` is rejected with an error (Python
ValueError); a negative stride is accepted and yields an empty frame
sequence; strides `≥ 1` behave per C4. -/
theorem c9_stride_amended (cfg : GridConfig) (T : ℕ)
    (states : ℕ → ℕ → ℕ → ℤ) (s : ℤ) :
    (s = 0 → prepare_animation_data cfg T states s = Except.error ())
    ∧ (s < 0 → framesOf (prepare_animation_data cfg T states s) = some []) := by
  constructor
  · intro h
    subst h
    simp [prepare_animation_data]
  · intro h
    simp only [prepare_animation_data, framesOf]
    rw [if_neg (by omega : ¬ s = 0), if_pos h]
    simp [Except.toOption]

/-- Witness for C9 at strides 0 and -2. -/
theorem c9_witness :
    ((0 : ℤ) = 0 ∧ prepare_animation_data cfgEx 2 statesAEx 0 = Except.error ())
    ∧ ((-2 : ℤ) < 0
       ∧ framesOf (prepare_animation_data cfgEx 2 statesAEx (-2)) = some []) :=
  ⟨⟨rfl, (c9_stride_amended cfgEx 2 statesAEx 0).1 rfl⟩,
   ⟨by decide, (c9_stride_amended cfgEx 2 statesAEx (-2)).2 (by decide)⟩⟩

/-- A 1x1 configuration for the strict part of C10. -/
def cfgSmall : GridConfig :=
  { center_lat := 0, center_lon := 0, grid_height := 1, grid_width := 1,
    pixel_scale_m := 1, cos_abs_lat := 1 }

/-- A stack whose only cell is still burning (state 1) in the final
snapshot: it has ignited but is not counted as burned. -/
def statesStillBurning : ℕ → ℕ → ℕ → ℤ := fun t _ _ => if t = 0 then 0 else 1

/-- C10: the summary statistics count burned cells (state exactly 2) in
the final snapshot only; `total_pixels = grid_height * grid_width`;
`burned_percentage = burned / total * 100`; `area_burned_ha` scales by
`pixel_scale_m^2 / 10000`; burned cells always ignited, and a cell still
burning at the end makes `burned_pixels` strictly smaller than the count
of cells with nonnegative ignition time. -/
theorem c10_statistics (cfg : GridConfig) (states : ℕ → ℕ → ℕ → ℤ) (T : ℕ)
    (hT : 0 < T) :
    (get_statistics cfg states T).burned_pixels
        = (cells cfg.grid_height cfg.grid_width).countP
            (fun c => states (T - 1) c.1 c.2 == 2)
    ∧ (get_statistics cfg states T).total_pixels
        = cfg.grid_height * cfg.grid_width
    ∧ (get_statistics cfg states T).burned_percentage
        = ((get_statistics cfg states T).burned_pixels : ℚ)
            / ((cfg.grid_height * cfg.grid_width : ℕ) : ℚ) * 100
    ∧ (get_statistics cfg states T).area_burned_ha
        = ((get_statistics cfg states T).burned_pixels : ℚ)
            * (cfg.pixel_scale_m ^ 2 / 10000)
    ∧ (get_statistics cfg states T).burned_pixels
        ≤ (cells cfg.grid_height cfg.grid_width).countP
            (fun c => decide (0 ≤ burn_time_matrix states T c.1 c.2))
    ∧ (get_statistics cfgSmall statesStillBurning 2).burned_pixels
        < (cells cfgSmall.grid_height cfgSmall.grid_width).countP
            (fun c => decide (0 ≤ burn_time_matrix statesStillBurning 2 c.1 c.2)) := by
  refine ⟨rfl, rfl, rfl, rfl, ?_, by decide⟩
  apply List.countP_mono_left
  intro c _ hpc
  have h2 : states (T - 1) c.1 c.2 = 2 := by simpa using hpc
  have hge : (1 : ℤ) ≤ states (T - 1) c.1 c.2 := by omega
  simpa using burn_time_matrix_nonneg states T c.1 c.2 (T - 1) (by omega) hge

/-- Witness for C10 at the scenario stack with T = 3. -/
theorem c10_witness :
    0 < 3
    ∧ ((get_statistics cfgEx statesEx 3).burned_pixels
        = (cells cfgEx.grid_height cfgEx.grid_width).countP
            (fun c => statesEx (3 - 1) c.1 c.2 == 2)
       ∧ (get_statistics cfgEx statesEx 3).total_pixels
           = cfgEx.grid_height * cfgEx.grid_width
       ∧ (get_statistics cfgEx statesEx 3).burned_percentage
           = ((get_statistics cfgEx statesEx 3).burned_pixels : ℚ)
               / ((cfgEx.grid_height * cfgEx.grid_width : ℕ) : ℚ) * 100
       ∧ (get_statistics cfgEx statesEx 3).area_burned_ha
           = ((get_statistics cfgEx statesEx 3).burned_pixels : ℚ)
               * (cfgEx.pixel_scale_m ^ 2 / 10000)
       ∧ (get_statistics cfgEx statesEx 3).burned_pixels
           ≤ (cells cfgEx.grid_height cfgEx.grid_width).countP
               (fun c => decide (0 ≤ burn_time_matrix statesEx 3 c.1 c.2))
       ∧ (get_statistics cfgSmall statesStillBurning 2).burned_pixels
           < (cells cfgSmall.grid_height cfgSmall.grid_width).countP
               (fun c => decide (0 ≤ burn_time_matrix statesStillBurning 2 c.1 c.2))) :=
  ⟨by decide, c10_statistics cfgEx statesEx 3 (by decide)⟩
